import Mathlib

/-!
ambient_exporter: derived measures and report normalisation.

A shallow embedding of `calculated-measures.go` and of the parsing half of
`main.go`, together with the properties stated about them.

Number model.

Go `float64` values are modelled by `Float64`: an exact real number, or one of
the three IEEE-754 specials `+Inf`, `-Inf`, `NaN`.  Arithmetic on finite values
is exact real arithmetic: rounding, overflow to infinity and underflow to zero
are not modelled, and zero carries no sign (it behaves as `+0`).  The specials
follow IEEE-754 and the special-case tables of Go's `math` package, so that
division by zero, the logarithm of a non-positive number and a fractional power
of a negative number produce in the model what they produce in Go.

Properties that turn on the last bit of a float64 result (an exact equality
after several roundings, a strict inequality between nearly equal values) are
outside this model.  The statements about the formulas are therefore given on
ranges of temperature and elevation where float64 stays far from overflow and
underflow, and their inequalities hold with a margin many orders of magnitude
above the rounding error.

Go `int` is modelled by `Int`; every `int` the program handles comes out of
`strconv.Atoi`, which only returns values of the 64-bit range.
-/

namespace AmbientExporter

/-! ## The float64 model -/

/-- Go `float64`: an exact real, or one of the IEEE-754 specials. -/
inductive Float64 where
  | fin (x : ℝ)
  | pinf
  | ninf
  | nan

namespace Float64

noncomputable instance : DecidableEq Float64 := Classical.decEq _

instance : Inhabited Float64 := ⟨fin 0⟩

instance (n : Nat) : OfNat Float64 n := ⟨fin (n : ℝ)⟩

instance : OfScientific Float64 := ⟨fun m s e => fin (OfScientific.ofScientific m s e)⟩

/-- Conversion `float64(i)` of a Go `int`. -/
def ofInt (i : Int) : Float64 := fin (i : ℝ)

/-- Unary minus. -/
def neg : Float64 → Float64
  | fin x => fin (-x)
  | pinf => ninf
  | ninf => pinf
  | nan => nan

/-- IEEE-754 addition. -/
def add : Float64 → Float64 → Float64
  | fin x, fin y => fin (x + y)
  | fin _, pinf => pinf
  | fin _, ninf => ninf
  | pinf, fin _ => pinf
  | pinf, pinf => pinf
  | pinf, ninf => nan
  | ninf, fin _ => ninf
  | ninf, ninf => ninf
  | ninf, pinf => nan
  | nan, _ => nan
  | _, nan => nan

/-- IEEE-754 subtraction. -/
def sub (a b : Float64) : Float64 := add a (neg b)

/-- An infinity of the sign of `s * x`, or `NaN` when `x = 0`; `s` says
whether the infinite factor is `+Inf`. -/
noncomputable def infTimes (s : Bool) (x : ℝ) : Float64 :=
  if 0 < x then (if s then pinf else ninf)
  else if x < 0 then (if s then ninf else pinf)
  else nan

/-- IEEE-754 multiplication. -/
noncomputable def mul : Float64 → Float64 → Float64
  | fin x, fin y => fin (x * y)
  | fin x, pinf => infTimes true x
  | fin x, ninf => infTimes false x
  | pinf, fin y => infTimes true y
  | ninf, fin y => infTimes false y
  | pinf, pinf => pinf
  | pinf, ninf => ninf
  | ninf, pinf => ninf
  | ninf, ninf => pinf
  | nan, _ => nan
  | _, nan => nan

/-- IEEE-754 division; a zero divisor is `+0`. -/
noncomputable def div : Float64 → Float64 → Float64
  | fin x, fin y => if y = 0 then infTimes true x else fin (x / y)
  | fin _, pinf => fin 0
  | fin _, ninf => fin 0
  | pinf, fin y => if 0 ≤ y then pinf else ninf
  | ninf, fin y => if 0 ≤ y then ninf else pinf
  | pinf, pinf => nan
  | pinf, ninf => nan
  | ninf, pinf => nan
  | ninf, ninf => nan
  | nan, _ => nan
  | _, nan => nan

instance : Neg Float64 := ⟨neg⟩
instance : Add Float64 := ⟨add⟩
instance : Sub Float64 := ⟨sub⟩
noncomputable instance : Mul Float64 := ⟨mul⟩
noncomputable instance : Div Float64 := ⟨div⟩

/-- Go `<` on float64: false as soon as one side is `NaN`. -/
def lt : Float64 → Float64 → Prop
  | fin x, fin y => x < y
  | fin _, pinf => True
  | ninf, fin _ => True
  | ninf, pinf => True
  | _, _ => False

/-- Go `<=` on float64: false as soon as one side is `NaN`. -/
def le : Float64 → Float64 → Prop
  | fin x, fin y => x ≤ y
  | fin _, pinf => True
  | pinf, pinf => True
  | ninf, fin _ => True
  | ninf, pinf => True
  | ninf, ninf => True
  | _, _ => False

instance : LT Float64 := ⟨lt⟩
instance : LE Float64 := ⟨le⟩

end Float64

/-! ## Go's `math` package -/

namespace math

open Float64

/-- Go `math.Exp`: `Exp(+Inf) = +Inf`, `Exp(-Inf) = 0`, `Exp(NaN) = NaN`. -/
noncomputable def Exp : Float64 → Float64
  | fin x => fin (Real.exp x)
  | pinf => pinf
  | ninf => fin 0
  | nan => nan

/-- Go `math.Log`: `Log(+Inf) = +Inf`, `Log(0) = -Inf`, `Log(x < 0) = NaN`,
`Log(NaN) = NaN`. -/
noncomputable def Log : Float64 → Float64
  | fin x => if 0 < x then fin (Real.log x) else if x = 0 then ninf else nan
  | pinf => pinf
  | ninf => nan
  | nan => nan

/-- The test `isOddInt` of Go's `math.Pow`. -/
def isOddInt (y : ℝ) : Prop := ∃ k : ℤ, y = 2 * (k : ℝ) + 1

/-- The value is a whole number. -/
def isInt (y : ℝ) : Prop := ∃ k : ℤ, y = (k : ℝ)

/-- Go `math.Pow`, case by case in the order of its source: `y == 0 || x == 1`,
`y == 1`, a `NaN` argument, `x == 0`, an infinite `y`, an infinite `x`, and then
finite arguments, where a negative base with a fractional exponent is `NaN`. -/
noncomputable def Pow (x y : Float64) : Float64 :=
  open Classical in
  if y = fin 0 ∨ x = fin 1 then fin 1
  else if y = fin 1 then x
  else
    match x, y with
    | nan, _ => nan
    | _, nan => nan
    | fin a, fin b =>
      if a = 0 then (if b < 0 then pinf else fin 0)
      else if a < 0 ∧ ¬ isInt b then nan
      else fin (a ^ b)
    | fin a, pinf =>
      if a = 0 then fin 0
      else if a = -1 then fin 1
      else if |a| < 1 then fin 0
      else pinf
    | fin a, ninf =>
      if a = 0 then pinf
      else if a = -1 then fin 1
      else if |a| < 1 then pinf
      else fin 0
    | pinf, fin b => if b < 0 then fin 0 else pinf
    | ninf, fin b =>
      if b < 0 then fin 0
      else if isOddInt b then ninf
      else pinf
    | pinf, pinf => pinf
    | pinf, ninf => fin 0
    | ninf, pinf => pinf
    | ninf, ninf => fin 0

end math

/-! ## calculated-measures.go -/

/-- The function `calculateAtmosphericPressure`: pressure at elevation in hPa. -/
noncomputable def calculateAtmosphericPressure (elevationFt : Float64) : Float64 :=
  let elevationM := elevationFt * 0.3048
  let p0 : Float64 := 1013.25
  let pressure := p0 * math.Pow (1 - (0.0065 * elevationM / 288.15)) 5.255
  pressure

/-- The function `calculateDewPoint` (Magnus formula). -/
noncomputable def calculateDewPoint (tempC : Float64) (humidity : Int) : Float64 :=
  let a : Float64 := 17.27
  let b : Float64 := 237.7
  let alpha := ((a * tempC) / (b + tempC)) + math.Log (Float64.ofInt humidity / 100.0)
  let dewPoint := (b * alpha) / (a - alpha)
  dewPoint

/-- The function `calculateHeatIndex`. -/
noncomputable def calculateHeatIndex (tempC : Float64) (humidity : Int) : Float64 :=
  let tempF := (tempC * 9.0 / 5.0) + 32.0
  let h := Float64.ofInt humidity
  let hiF := -42.379 + 2.04901523 * tempF + 10.14333127 * h - 0.22475541 * tempF * h -
    6.83783 * math.Pow 10 (-3) * math.Pow tempF 2 - 5.481717 * math.Pow 10 (-2) * math.Pow h 2 +
    1.22874 * math.Pow 10 (-3) * math.Pow tempF 2 * h + 8.5282 * math.Pow 10 (-4) * tempF * math.Pow h 2 -
    1.99 * math.Pow 10 (-6) * math.Pow tempF 2 * math.Pow h 2
  let hiC := (hiF - 32.0) * 5.0 / 9.0
  hiC

/-- The function `calculateWindChill`. -/
noncomputable def calculateWindChill (tempC windSpeedMph : Float64) : Float64 :=
  let tempF := (tempC * 9.0 / 5.0) + 32.0
  let wcF := 35.74 + 0.6215 * tempF - 35.75 * math.Pow windSpeedMph 0.16 +
    0.4275 * tempF * math.Pow windSpeedMph 0.16
  let wcC := (wcF - 32.0) * 5.0 / 9.0
  wcC

/-- The function `calculateAbsoluteHumidity` (g/m³, with altitude correction). -/
noncomputable def calculateAbsoluteHumidity (tempC : Float64) (humidity : Int)
    (elevationFt : Float64) : Float64 :=
  let svp := 6.112 * math.Exp ((17.67 * tempC) / (tempC + 243.5))
  let avp := svp * Float64.ofInt humidity / 100.0
  let atmosphericPressure := calculateAtmosphericPressure elevationFt
  let densityRatio := atmosphericPressure / 1013.25
  let ah := (216.7 * avp) / (tempC + 273.15) * densityRatio
  ah

/-- The function `calculateVaporPressure`. -/
noncomputable def calculateVaporPressure (tempC : Float64) (humidity : Int) : Float64 :=
  let svp := 6.112 * math.Exp ((17.67 * tempC) / (tempC + 243.5))
  let avp := svp * Float64.ofInt humidity / 100.0
  avp

/-- The function `calculateVaporPressureDeficit`. -/
noncomputable def calculateVaporPressureDeficit (tempC : Float64) (humidity : Int) : Float64 :=
  let svp := 6.112 * math.Exp ((17.67 * tempC) / (tempC + 243.5))
  let avp := svp * Float64.ofInt humidity / 100.0
  let vpd := svp - avp
  vpd

/-- The function `calculateWindRun`: wind speed over a 24-hour period. -/
noncomputable def calculateWindRun (windSpeedMph : Float64) : Float64 :=
  let hours : Float64 := 24.0
  let windRun := windSpeedMph * hours
  windRun

/-- The function `calculateEvapotranspiration`: simplified FAO Penman-Monteith
equation adjusted for elevation. -/
noncomputable def calculateEvapotranspiration (tempC : Float64) (humidity : Int)
    (windSpeedMph solarRadiation elevationFt : Float64) : Float64 :=
  let elevationM := elevationFt * 0.3048
  let windSpeedMs := windSpeedMph * 0.44704
  let windSpeedMs := windSpeedMs * math.Pow (elevationM / 10.0) 0.2
  let atmosphericPressure := calculateAtmosphericPressure elevationFt
  let gamma := 0.665 * math.Pow 10 (-3) * atmosphericPressure
  let delta := 4098 * (0.6108 * math.Exp ((17.27 * tempC) / (tempC + 237.3))) /
    math.Pow (tempC + 237.3) 2
  let es := 0.6108 * math.Exp ((17.27 * tempC) / (tempC + 237.3))
  let ea := es * Float64.ofInt humidity / 100.0
  let numerator := 0.408 * delta * solarRadiation +
    gamma * (900 / (tempC + 273)) * windSpeedMs * (es - ea)
  let denominator := delta + gamma * (1 + 0.34 * windSpeedMs)
  let et := numerator / denominator
  et

/-- The local `windSpeedMs` of `calculateEvapotranspiration` after its
elevation adjustment. -/
noncomputable def etWindSpeedMs (windSpeedMph elevationFt : Float64) : Float64 :=
  let elevationM := elevationFt * 0.3048
  let windSpeedMs := windSpeedMph * 0.44704
  let windSpeedMs := windSpeedMs * math.Pow (elevationM / 10.0) 0.2
  windSpeedMs

/-- The local `gamma` of `calculateEvapotranspiration`: the psychrometric
constant adjusted for elevation. -/
noncomputable def etGamma (elevationFt : Float64) : Float64 :=
  let atmosphericPressure := calculateAtmosphericPressure elevationFt
  let gamma := 0.665 * math.Pow 10 (-3) * atmosphericPressure
  gamma

/-- The local `delta` of `calculateEvapotranspiration`: the slope of the
saturation vapour pressure curve. -/
noncomputable def etDelta (tempC : Float64) : Float64 :=
  4098 * (0.6108 * math.Exp ((17.27 * tempC) / (tempC + 237.3))) /
    math.Pow (tempC + 237.3) 2

/-- The local `numerator` of `calculateEvapotranspiration`. -/
noncomputable def etNumerator (tempC : Float64) (humidity : Int)
    (windSpeedMph solarRadiation elevationFt : Float64) : Float64 :=
  let es := 0.6108 * math.Exp ((17.27 * tempC) / (tempC + 237.3))
  let ea := es * Float64.ofInt humidity / 100.0
  0.408 * etDelta tempC * solarRadiation +
    etGamma elevationFt * (900 / (tempC + 273)) * etWindSpeedMs windSpeedMph elevationFt * (es - ea)

/-- The local `denominator` of `calculateEvapotranspiration`. -/
noncomputable def etDenominator (tempC windSpeedMph elevationFt : Float64) : Float64 :=
  etDelta tempC + etGamma elevationFt * (1 + 0.34 * etWindSpeedMs windSpeedMph elevationFt)

/-! ## main.go: the report and its normalisation -/

/-- Go `time.Time`, as a calendar date and a time of day in UTC. -/
structure Time where
  year : Int
  month : Nat
  day : Nat
  hour : Nat
  minute : Nat
  second : Nat
  nsec : Nat
deriving DecidableEq, Repr

/-- The zero value of `time.Time`: January 1, year 1, 00:00:00 UTC. -/
def Time.zero : Time := ⟨1, 1, 1, 0, 0, 0, 0⟩

/-- The struct `WeatherReport`. -/
structure WeatherReport where
  PassKey : String
  StationType : String
  DateUTC : Time
  Temp : Float64
  Humidity : Int
  WindSpeedMph : Float64
  WindGustMph : Float64
  MaxDailyGust : Float64
  WindDir : Int
  UV : Int
  SolarRadiation : Float64
  BattOut : Int
  AtmosphericPressure : Float64
  DewPoint : Float64
  HeatIndex : Float64
  WindChill : Float64
  AbsoluteHumidity : Float64
  VaporPressure : Float64
  VaporPressureDeficit : Float64
  WindRun : Float64
  Evapotranspiration : Float64
  HourlyRainIn : Float64
  EventRainIn : Float64
  DailyRainIn : Float64
  WeeklyRainIn : Float64
  MonthlyRainIn : Float64
  YearlyRainIn : Float64
  TotalRainIn : Float64
  TempIn : Float64
  HumidityIn : Int
  BaromRelIn : Float64
  BaromAbsIn : Float64

/-- The function `calculateDerivedMeasures`; the Go function updates the report
in place, here the updated report is returned. -/
noncomputable def calculateDerivedMeasures (report : WeatherReport) (elevationFt : Float64) :
    WeatherReport :=
  let report := { report with AtmosphericPressure := calculateAtmosphericPressure elevationFt }
  let report := { report with DewPoint := calculateDewPoint report.Temp report.Humidity }
  let report := { report with HeatIndex := calculateHeatIndex report.Temp report.Humidity }
  let report := { report with WindChill := calculateWindChill report.Temp report.WindSpeedMph }
  let report := { report with
    AbsoluteHumidity := calculateAbsoluteHumidity report.Temp report.Humidity elevationFt }
  let report := { report with VaporPressure := calculateVaporPressure report.Temp report.Humidity }
  let report := { report with
    VaporPressureDeficit := calculateVaporPressureDeficit report.Temp report.Humidity }
  let report := { report with WindRun := calculateWindRun report.WindSpeedMph }
  let report := { report with
    Evapotranspiration := calculateEvapotranspiration report.Temp report.Humidity
      report.WindSpeedMph report.SolarRadiation elevationFt }
  report

/-- Go `url.Values`, a `map[string][]string`, as an association list; the
first entry of a key is the one the map holds. -/
abbrev Values := List (String × List String)

/-- Go `url.Values.Get`: the first value of the key, or `""` when there is none. -/
def Values.Get (v : Values) (key : String) : String :=
  match v.lookup key with
  | some (x :: _) => x
  | _ => ""

/-- The error kinds of Go's `strconv.NumError`. -/
inductive NumError where
  | ErrSyntax
  | ErrRange
deriving DecidableEq, Repr

namespace strconv

/-- The byte is an ASCII decimal digit. -/
def isDigit (c : Char) : Bool := 48 ≤ c.toNat && c.toNat ≤ 57

/-- The digit loop of Go `strconv.ParseUint` for base 10 and 64 bits: a
character that is no digit is a syntax error with value 0, an overflow is a
range error with value `2^64 - 1`. -/
def ParseUint.loop : List Char → Nat → Nat × Option NumError
  | [], n => (n, none)
  | c :: cs, n =>
    if isDigit c then
      if n ≥ (2 ^ 64 - 1) / 10 + 1 then (2 ^ 64 - 1, some NumError.ErrRange)
      else
        let n1 := n * 10 + (c.toNat - 48)
        if n1 > 2 ^ 64 - 1 then (2 ^ 64 - 1, some NumError.ErrRange)
        else ParseUint.loop cs n1
    else (0, some NumError.ErrSyntax)

/-- Go `strconv.ParseUint(s, 10, 0)` on a 64-bit platform. -/
def ParseUint (s : List Char) : Nat × Option NumError :=
  if s = [] then (0, some NumError.ErrSyntax) else ParseUint.loop s 0

/-- Go `strconv.ParseInt(s, 10, 0)` on a 64-bit platform: on a range error the
value is the integer of largest magnitude of the sign. -/
def ParseInt (s : List Char) : Int × Option NumError :=
  match s with
  | [] => (0, some NumError.ErrSyntax)
  | c :: cs =>
    let neg := c = '-'
    let s1 := if c = '+' ∨ c = '-' then cs else s
    let r := ParseUint s1
    if r.2 = some NumError.ErrSyntax then (0, some NumError.ErrSyntax)
    else if ¬ neg ∧ r.1 ≥ 2 ^ 63 then (2 ^ 63 - 1, some NumError.ErrRange)
    else if neg ∧ r.1 > 2 ^ 63 then (-(2 ^ 63), some NumError.ErrRange)
    else if neg then (-(r.1 : Int), none) else ((r.1 : Int), none)

/-- The digit loop of the fast path of Go `strconv.Atoi`. -/
def Atoi.fast : List Char → Nat → Option Nat
  | [], n => some n
  | c :: cs, n => if isDigit c then Atoi.fast cs (n * 10 + (c.toNat - 48)) else none

/-- Go `strconv.Atoi` on a 64-bit platform, returning the value and the error
(`none` for `nil`).  Strings of 1 to 18 bytes take the fast path, all others go
through `ParseInt`.  Go works on the bytes of the string; the characters are
used here, which makes no difference to the digit and sign tests since every
byte of a multi-byte character is above the ASCII range. -/
def Atoi (s : String) : Int × Option NumError :=
  if 0 < s.utf8ByteSize ∧ s.utf8ByteSize < 19 then
    match s.data with
    | [] => (0, some NumError.ErrSyntax)
    | c :: cs =>
      let body := if c = '-' ∨ c = '+' then cs else c :: cs
      if body = [] then (0, some NumError.ErrSyntax)
      else
        match Atoi.fast body 0 with
        | none => (0, some NumError.ErrSyntax)
        | some n => if c = '-' then (-(n : Int), none) else ((n : Int), none)
  else ParseInt s.data

end strconv

/-- The function `parseFloat` of main.go.  `ParseFloat` stands for Go's
`strconv.ParseFloat(·, 64)`, which returns a value and an error (`none` for
`nil`); it is not part of the repository and is taken as a parameter. -/
def parseFloat (ParseFloat : String → Float64 × Option NumError) (key : String)
    (query : Values) : Float64 :=
  let val := query.Get key
  if val ≠ "" then
    let f := (ParseFloat val).1
    f
  else 0

/-- The function `parseTempF` of main.go. -/
noncomputable def parseTempF (ParseFloat : String → Float64 × Option NumError) (key : String)
    (query : Values) : Float64 :=
  let f := parseFloat ParseFloat key query
  if f = 0 then 0
  else (f - 32) * 5 / 9

/-- The function `parseInt` of main.go. -/
def parseInt (key : String) (query : Values) : Int :=
  let val := query.Get key
  if val ≠ "" then
    let i := (strconv.Atoi val).1
    i
  else 0

/-- Go `strings.ReplaceAll`. -/
def strings.ReplaceAll (s old new : String) : String := s.replace old new

/-- The function `parseWeatherReport` of main.go.  `timeParse` stands for Go's
`time.Parse(layout, value)` and `ParseFloat` for `strconv.ParseFloat(·, 64)`;
neither is part of the repository and both are taken as parameters.  The fields
the Go code leaves at their zero value are zero here. -/
noncomputable def parseWeatherReport (timeParse : String → String → Except String Time)
    (ParseFloat : String → Float64 × Option NumError) (query : Values) :
    Except String WeatherReport :=
  let dateStr := query.Get "dateutc"
  let date : Except String Time :=
    if dateStr ≠ "" then
      let dateStr := strings.ReplaceAll dateStr "+" " "
      match timeParse "2006-01-02 15:04:05" dateStr with
      | .error err => .error ("failed to parse date: " ++ err)
      | .ok t => .ok t
    else .ok Time.zero
  match date with
  | .error e => .error e
  | .ok t =>
    .ok {
      PassKey := query.Get "PASSKEY"
      StationType := query.Get "stationtype"
      DateUTC := t
      Temp := parseTempF ParseFloat "tempf" query
      Humidity := parseInt "humidity" query
      WindSpeedMph := parseFloat ParseFloat "windspeedmph" query
      WindGustMph := parseFloat ParseFloat "windgustmph" query
      MaxDailyGust := parseFloat ParseFloat "maxdailygust" query
      WindDir := parseInt "winddir" query
      UV := parseInt "uv" query
      SolarRadiation := parseFloat ParseFloat "solarradiation" query
      BattOut := parseInt "battout" query
      AtmosphericPressure := 0
      DewPoint := 0
      HeatIndex := 0
      WindChill := 0
      AbsoluteHumidity := 0
      VaporPressure := 0
      VaporPressureDeficit := 0
      WindRun := 0
      Evapotranspiration := 0
      HourlyRainIn := parseFloat ParseFloat "hourlyrainin" query
      EventRainIn := parseFloat ParseFloat "eventrainin" query
      DailyRainIn := parseFloat ParseFloat "dailyrainin" query
      WeeklyRainIn := parseFloat ParseFloat "weeklyrainin" query
      MonthlyRainIn := parseFloat ParseFloat "monthlyrainin" query
      YearlyRainIn := parseFloat ParseFloat "yearlyrainin" query
      TotalRainIn := parseFloat ParseFloat "totalrainin" query
      TempIn := parseTempF ParseFloat "tempinf" query
      HumidityIn := parseInt "humidityin" query
      BaromRelIn := parseFloat ParseFloat "baromrelin" query
      BaromAbsIn := parseFloat ParseFloat "baromabsin" query }

/-! ## Evaluation lemmas for the float64 model -/

open Float64 (fin pinf ninf nan)

namespace Float64

theorem ofNat_def (n : Nat) : (OfNat.ofNat n : Float64) = fin (n : ℝ) := rfl

theorem zero_def : (0 : Float64) = fin 0 := by
  rw [ofNat_def, Nat.cast_zero]

theorem ofScientific_def (m : Nat) (s : Bool) (e : Nat) :
    (OfScientific.ofScientific m s e : Float64) = fin (OfScientific.ofScientific m s e) := rfl

theorem neg_fin (x : ℝ) : -(fin x) = fin (-x) := rfl

theorem fin_add (x y : ℝ) : fin x + fin y = fin (x + y) := rfl

theorem fin_sub (x y : ℝ) : fin x - fin y = fin (x - y) := by
  show add (fin x) (neg (fin y)) = fin (x - y)
  simp [add, neg, sub_eq_add_neg]

theorem fin_mul (x y : ℝ) : fin x * fin y = fin (x * y) := rfl

theorem fin_div (x : ℝ) {y : ℝ} (h : y ≠ 0) : fin x / fin y = fin (x / y) := by
  show div (fin x) (fin y) = fin (x / y)
  simp [div, h]

theorem fin_div_zero_of_neg {x : ℝ} (h : x < 0) : fin x / fin 0 = ninf := by
  show div (fin x) (fin 0) = ninf
  simp [div, infTimes, h, not_lt.mpr h.le]

theorem fin_mul_nan (x : ℝ) : fin x * nan = nan := rfl

theorem nan_div_fin (y : ℝ) : nan / fin y = nan := rfl

theorem not_nan_lt (a : Float64) : ¬ (nan < a) := by
  intro h
  cases a <;> exact h

theorem fin_lt_fin (x y : ℝ) : fin x < fin y ↔ x < y := Iff.rfl

theorem fin_le_fin (x y : ℝ) : fin x ≤ fin y ↔ x ≤ y := Iff.rfl

end Float64

namespace math

open Float64

theorem Exp_fin (x : ℝ) : Exp (fin x) = fin (Real.exp x) := rfl

theorem Exp_ninf : Exp ninf = fin 0 := rfl

theorem Log_fin {x : ℝ} (h : 0 < x) : Log (fin x) = fin (Real.log x) := by
  simp [Log, h]

theorem not_isInt_5255 : ¬ isInt 5.255 := by
  rintro ⟨k, hk⟩
  have h1 : ((5255 : ℤ) : ℝ) = ((1000 * k : ℤ) : ℝ) := by
    push_cast
    linarith
  have h2 : (5255 : ℤ) = 1000 * k := by exact_mod_cast h1
  omega

theorem Pow_fin_neg_5255 {a : ℝ} (ha : a < 0) : Pow (fin a) (fin 5.255) = nan := by
  unfold Pow
  have h0 : (5.255 : ℝ) ≠ 0 := by norm_num
  have h1 : (5.255 : ℝ) ≠ 1 := by norm_num
  have h2 : a ≠ 1 := by linarith
  simp [h0, h1, h2, ha.ne, ha, not_isInt_5255]

theorem Pow_fin_of_pos {a : ℝ} (ha : 0 < a) (b : ℝ) : Pow (fin a) (fin b) = fin (a ^ b) := by
  unfold Pow
  by_cases h0 : b = 0
  · simp [h0]
  by_cases h1 : a = 1
  · simp [h1]
  by_cases h2 : b = 1
  · simp [h2, h1]
  simp [h0, h1, h2, ha.ne', not_lt.mpr ha.le]

theorem Pow_fin_of_nonneg {a : ℝ} (ha : 0 ≤ a) {b : ℝ} (hb : 0 < b) :
    Pow (fin a) (fin b) = fin (a ^ b) := by
  rcases ha.eq_or_lt with h | h
  · subst h
    unfold Pow
    by_cases h2 : b = 1
    · simp [h2]
    simp [hb.ne', h2, not_lt.mpr hb.le, Real.zero_rpow hb.ne']
  · exact Pow_fin_of_pos h b

end math

/-! ## Atmospheric pressure -/

theorem calculateAtmosphericPressure_fin {e : ℝ}
    (h : 0 ≤ 1 - 0.0065 * (e * 0.3048) / 288.15) :
    calculateAtmosphericPressure (fin e) =
      fin (1013.25 * (1 - 0.0065 * (e * 0.3048) / 288.15) ^ (5.255 : ℝ)) := by
  have h288 : (288.15 : ℝ) ≠ 0 := by norm_num
  have h5 : (0 : ℝ) < 5.255 := by norm_num
  simp only [calculateAtmosphericPressure, Float64.ofScientific_def, Float64.ofNat_def,
    Float64.fin_mul, Float64.fin_div _ h288, Float64.fin_sub, Nat.cast_one]
  rw [math.Pow_fin_of_nonneg h h5, Float64.fin_mul]

/-! ## Vapour pressure and absolute humidity -/

theorem calculateVaporPressureDeficit_fin {T : ℝ} (hT : T ≠ -243.5) (h : Int) :
    calculateVaporPressureDeficit (fin T) h =
      fin (6.112 * Real.exp (17.67 * T / (T + 243.5)) -
        6.112 * Real.exp (17.67 * T / (T + 243.5)) * (h : ℝ) / 100) := by
  have h1 : T + 243.5 ≠ 0 := fun h0 => hT (by linarith)
  have h100 : (100.0 : ℝ) ≠ 0 := by norm_num
  simp only [calculateVaporPressureDeficit, Float64.ofScientific_def, Float64.ofInt,
    Float64.fin_mul, Float64.fin_add, Float64.fin_div _ h1, Float64.fin_div _ h100,
    Float64.fin_sub, math.Exp_fin]
  norm_num

theorem calculateVaporPressureDeficit_singular (h : Int) :
    calculateVaporPressureDeficit (fin (-243.5)) h = fin 0 := by
  have h0 : (-243.5 : ℝ) + 243.5 = 0 := by norm_num
  have hneg : (17.67 : ℝ) * (-243.5) < 0 := by norm_num
  have h100 : (100.0 : ℝ) ≠ 0 := by norm_num
  simp only [calculateVaporPressureDeficit, Float64.ofScientific_def, Float64.ofInt,
    Float64.fin_mul, Float64.fin_add, h0, Float64.fin_div_zero_of_neg hneg, math.Exp_ninf,
    Float64.fin_div _ h100, Float64.fin_sub]
  norm_num

theorem calculateAtmosphericPressure_nan {e : ℝ}
    (h : 1 - 0.0065 * (e * 0.3048) / 288.15 < 0) :
    calculateAtmosphericPressure (fin e) = nan := by
  have h288 : (288.15 : ℝ) ≠ 0 := by norm_num
  simp only [calculateAtmosphericPressure, Float64.ofScientific_def, Float64.ofNat_def,
    Float64.fin_mul, Float64.fin_div _ h288, Float64.fin_sub, Nat.cast_one]
  rw [math.Pow_fin_neg_5255 h, Float64.fin_mul_nan]

theorem calculateAbsoluteHumidity_fin {T e : ℝ} (h : Int) (hT : T ≠ -243.5)
    (hK : T ≠ -273.15) (he : 0 ≤ 1 - 0.0065 * (e * 0.3048) / 288.15) :
    calculateAbsoluteHumidity (fin T) h (fin e) =
      fin (216.7 * (6.112 * Real.exp (17.67 * T / (T + 243.5)) * (h : ℝ) / 100) /
        (T + 273.15) *
        (1013.25 * (1 - 0.0065 * (e * 0.3048) / 288.15) ^ (5.255 : ℝ) / 1013.25)) := by
  have h1 : T + 243.5 ≠ 0 := fun h0 => hT (by linarith)
  have h2 : T + 273.15 ≠ 0 := fun h0 => hK (by linarith)
  have h100 : (100.0 : ℝ) ≠ 0 := by norm_num
  have hp : (1013.25 : ℝ) ≠ 0 := by norm_num
  simp only [calculateAbsoluteHumidity, calculateAtmosphericPressure_fin he,
    Float64.ofScientific_def, Float64.ofInt, Float64.fin_mul, Float64.fin_add,
    Float64.fin_div _ h1, Float64.fin_div _ h2, Float64.fin_div _ h100, Float64.fin_div _ hp,
    math.Exp_fin]
  norm_num

theorem calculateAbsoluteHumidity_nan {T e : ℝ} (h : Int) (hT : T ≠ -243.5)
    (hK : T ≠ -273.15) (he : 1 - 0.0065 * (e * 0.3048) / 288.15 < 0) :
    calculateAbsoluteHumidity (fin T) h (fin e) = nan := by
  have h1 : T + 243.5 ≠ 0 := fun h0 => hT (by linarith)
  have h2 : T + 273.15 ≠ 0 := fun h0 => hK (by linarith)
  have h100 : (100.0 : ℝ) ≠ 0 := by norm_num
  simp only [calculateAbsoluteHumidity, calculateAtmosphericPressure_nan he,
    Float64.ofScientific_def, Float64.ofInt, Float64.fin_mul, Float64.fin_add,
    Float64.fin_div _ h1, Float64.fin_div _ h2, Float64.fin_div _ h100, Float64.nan_div_fin,
    math.Exp_fin, Float64.fin_mul_nan]

theorem calculateAbsoluteHumidity_singular {e : ℝ} (h : Int)
    (he : 0 ≤ 1 - 0.0065 * (e * 0.3048) / 288.15) :
    calculateAbsoluteHumidity (fin (-243.5)) h (fin e) = fin 0 := by
  have h0 : (-243.5 : ℝ) + 243.5 = 0 := by norm_num
  have hneg : (17.67 : ℝ) * (-243.5) < 0 := by norm_num
  have h2 : (-243.5 : ℝ) + 273.15 ≠ 0 := by norm_num
  have h100 : (100.0 : ℝ) ≠ 0 := by norm_num
  have hp : (1013.25 : ℝ) ≠ 0 := by norm_num
  simp only [calculateAbsoluteHumidity, calculateAtmosphericPressure_fin he,
    Float64.ofScientific_def, Float64.ofInt, Float64.fin_mul, Float64.fin_add, h0,
    Float64.fin_div_zero_of_neg hneg, math.Exp_ninf, Float64.fin_div _ h2,
    Float64.fin_div _ h100, Float64.fin_div _ hp]
  norm_num

theorem barometric_rpow_lt {e1 e2 : ℝ} (h12 : e1 < e2)
    (he : 0 ≤ 1 - 0.0065 * (e2 * 0.3048) / 288.15) :
    (1 - 0.0065 * (e2 * 0.3048) / 288.15) ^ (5.255 : ℝ) <
      (1 - 0.0065 * (e1 * 0.3048) / 288.15) ^ (5.255 : ℝ) := by
  have hlt : 1 - 0.0065 * (e2 * 0.3048) / 288.15 < 1 - 0.0065 * (e1 * 0.3048) / 288.15 := by
    have : 0.0065 * (e1 * 0.3048) / 288.15 < 0.0065 * (e2 * 0.3048) / 288.15 := by
      apply div_lt_div_of_pos_right _ (by norm_num)
      nlinarith
    linarith
  exact Real.rpow_lt_rpow he hlt (by norm_num)

/-- C2, as stated, fails in three ways.  Above about 145 442 ft the base of the
barometric power is negative, the pressure is `NaN` and so is the absolute
humidity, which is then not below its value at sea level; below -273.15 °C
the factor `216.7 * avp / (T + 273.15)` is negative, so that the absolute
humidity increases with elevation; and at the pole -243.5 °C of the saturation
formula the absolute humidity is 0 at every elevation. -/
theorem calculateAbsoluteHumidity_not_strictAnti :
    calculateAbsoluteHumidity (fin 20) 50 (fin 200000) = nan ∧
    ¬ (calculateAbsoluteHumidity (fin 20) 50 (fin 200000) <
        calculateAbsoluteHumidity (fin 20) 50 (fin 0)) ∧
    calculateAbsoluteHumidity (fin (-300)) 1 (fin 0) <
      calculateAbsoluteHumidity (fin (-300)) 1 (fin 1000) ∧
    ¬ (calculateAbsoluteHumidity (fin (-300)) 1 (fin 1000) <
        calculateAbsoluteHumidity (fin (-300)) 1 (fin 0)) ∧
    ¬ (calculateAbsoluteHumidity (fin (-243.5)) 50 (fin 1000) <
        calculateAbsoluteHumidity (fin (-243.5)) 50 (fin 0)) := by
  have hnan : calculateAbsoluteHumidity (fin 20) 50 (fin 200000) = nan :=
    calculateAbsoluteHumidity_nan 50 (by norm_num) (by norm_num) (by norm_num)
  have he0 : (0 : ℝ) ≤ 1 - 0.0065 * (0 * 0.3048) / 288.15 := by norm_num
  have he1 : (0 : ℝ) ≤ 1 - 0.0065 * (1000 * 0.3048) / 288.15 := by norm_num
  have hlt := barometric_rpow_lt (by norm_num : (0 : ℝ) < 1000) he1
  have hup : calculateAbsoluteHumidity (fin (-300)) 1 (fin 0) <
      calculateAbsoluteHumidity (fin (-300)) 1 (fin 1000) := by
    rw [calculateAbsoluteHumidity_fin 1 (by norm_num) (by norm_num) he0,
      calculateAbsoluteHumidity_fin 1 (by norm_num) (by norm_num) he1, Float64.fin_lt_fin]
    have hK : 216.7 * (6.112 * Real.exp (17.67 * (-300) / (-300 + 243.5)) * ((1 : Int) : ℝ) / 100) /
        (-300 + 273.15) < 0 := by
      apply div_neg_of_pos_of_neg _ (by norm_num)
      have := Real.exp_pos (17.67 * (-300) / (-300 + 243.5))
      push_cast
      positivity
    apply mul_lt_mul_of_neg_left _ hK
    apply div_lt_div_of_pos_right _ (by norm_num)
    linarith
  refine ⟨hnan, ?_, hup, ?_, ?_⟩
  · rw [hnan]
    exact Float64.not_nan_lt _
  · intro h
    rw [calculateAbsoluteHumidity_fin 1 (by norm_num) (by norm_num) he0,
      calculateAbsoluteHumidity_fin 1 (by norm_num) (by norm_num) he1, Float64.fin_lt_fin] at h hup
    exact lt_asymm h hup
  · rw [calculateAbsoluteHumidity_singular 50 he0, calculateAbsoluteHumidity_singular 50 he1,
      Float64.fin_lt_fin]
    exact lt_irrefl 0

/-- C2, amended: for a temperature between -100 °C and 100 °C, a humidity
above 0 and elevations `0 ≤ e1 < e2` (in feet) that are at least 0.001 ft apart
and at most 145000 ft, the absolute humidity at `e2` is strictly below the one
at `e1`. -/
theorem calculateAbsoluteHumidity_strictAnti (T : ℝ) (h : Int) (e1 e2 : ℝ)
    (hlo : -100 ≤ T) (_hhi : T ≤ 100) (hh : 0 < h) (_h1 : 0 ≤ e1) (h12 : e1 + 0.001 ≤ e2)
    (h2 : e2 ≤ 145000) :
    calculateAbsoluteHumidity (fin T) h (fin e2) <
      calculateAbsoluteHumidity (fin T) h (fin e1) := by
  have hK : -273.15 < T := by linarith
  have hT : T ≠ -243.5 := by
    intro hT
    rw [hT] at hlo
    norm_num at hlo
  have hlt12 : e1 < e2 := by linarith
  have he2 : (0 : ℝ) ≤ 1 - 0.0065 * (e2 * 0.3048) / 288.15 := by
    rw [sub_nonneg, div_le_one (by norm_num)]
    nlinarith
  have he1 : (0 : ℝ) ≤ 1 - 0.0065 * (e1 * 0.3048) / 288.15 := by
    rw [sub_nonneg, div_le_one (by norm_num)]
    nlinarith
  have hlt := barometric_rpow_lt hlt12 he2
  rw [calculateAbsoluteHumidity_fin h hT hK.ne' he2, calculateAbsoluteHumidity_fin h hT hK.ne' he1,
    Float64.fin_lt_fin]
  have hpos : 0 < 216.7 * (6.112 * Real.exp (17.67 * T / (T + 243.5)) * (h : ℝ) / 100) /
      (T + 273.15) := by
    have hhr : (0 : ℝ) < h := by exact_mod_cast hh
    have := Real.exp_pos (17.67 * T / (T + 243.5))
    apply div_pos _ (by linarith)
    positivity
  apply mul_lt_mul_of_pos_left _ hpos
  apply div_lt_div_of_pos_right _ (by norm_num)
  linarith

/-- Witness for C2 (amended): 20 °C, 50 % humidity, sea level against 1000 ft. -/
theorem calculateAbsoluteHumidity_strictAnti_witness :
    calculateAbsoluteHumidity (fin 20) 50 (fin 1000) <
      calculateAbsoluteHumidity (fin 20) 50 (fin 0) :=
  calculateAbsoluteHumidity_strictAnti 20 50 0 1000 (by norm_num) (by norm_num) (by decide)
    (by norm_num) (by norm_num) (by norm_num)

theorem calculateVaporPressureDeficit_pinf (h : Int) :
    calculateVaporPressureDeficit pinf h = nan := by
  have h1 : (17.67 : Float64) * pinf = pinf := by
    rw [Float64.ofScientific_def]
    show Float64.infTimes true _ = pinf
    have : (0 : ℝ) < 17.67 := by norm_num
    simp [Float64.infTimes, this]
  have h2 : pinf + (243.5 : Float64) = pinf := rfl
  have h3 : pinf / pinf = nan := rfl
  have h4 : (6.112 : Float64) * math.Exp nan = nan := rfl
  have h5 : nan * Float64.ofInt h / (100.0 : Float64) = nan := rfl
  have h6 : nan - nan = nan := rfl
  simp only [calculateVaporPressureDeficit, h1, h2, h3, h4, h5, h6]

/-- C3, as stated, fails at the pole of the saturation formula and at an
infinite temperature: at -243.5 °C the exponent is `-Inf`, the saturation
pressure is 0 and the deficit is 0 at 50 % humidity; at `+Inf` the exponent is
`Inf / Inf`, so the deficit is `NaN` and not at least 0. -/
theorem calculateVaporPressureDeficit_zero_at_pole :
    (calculateVaporPressureDeficit (fin (-243.5)) 50 = 0 ∧ (50 : Int) ≠ 100) ∧
    ¬ (0 ≤ calculateVaporPressureDeficit pinf 50) := by
  refine ⟨⟨by rw [calculateVaporPressureDeficit_singular, Float64.zero_def], by decide⟩, ?_⟩
  rw [calculateVaporPressureDeficit_pinf, Float64.zero_def]
  intro h
  exact h

/-- C3, amended: for a temperature between -100 °C and 100 °C and a humidity
between 0 and 100, the vapour pressure deficit is above 0 whenever the
humidity is below 100, so it is 0 only at 100 %. -/
theorem calculateVaporPressureDeficit_pos (T : ℝ) (h : Int) (hlo : -100 ≤ T) (_hhi : T ≤ 100)
    (_h0 : 0 ≤ h) (h100 : h ≤ 100) :
    (h < 100 → 0 < calculateVaporPressureDeficit (fin T) h) ∧
      (calculateVaporPressureDeficit (fin T) h = 0 → h = 100) := by
  have hT : T ≠ -243.5 := by
    intro hT
    rw [hT] at hlo
    norm_num at hlo
  rw [calculateVaporPressureDeficit_fin hT]
  have hs : 0 < 6.112 * Real.exp (17.67 * T / (T + 243.5)) :=
    mul_pos (by norm_num) (Real.exp_pos _)
  have key : 6.112 * Real.exp (17.67 * T / (T + 243.5)) -
      6.112 * Real.exp (17.67 * T / (T + 243.5)) * (h : ℝ) / 100 =
      6.112 * Real.exp (17.67 * T / (T + 243.5)) * ((100 - (h : ℝ)) / 100) := by ring
  have hpos : h < 100 → 0 < 6.112 * Real.exp (17.67 * T / (T + 243.5)) *
      ((100 - (h : ℝ)) / 100) := by
    intro hh
    have hr : (h : ℝ) < 100 := by exact_mod_cast hh
    exact mul_pos hs (div_pos (by linarith) (by norm_num))
  rw [key, Float64.zero_def, Float64.fin_lt_fin]
  refine ⟨hpos, ?_⟩
  intro hz
  rw [Float64.fin.injEq] at hz
  by_contra hne
  have hh : h < 100 := lt_of_le_of_ne h100 hne
  exact absurd hz (hpos hh).ne'

/-- Witness for C3 (amended): 20 °C at 50 % humidity. -/
theorem calculateVaporPressureDeficit_pos_witness :
    0 < calculateVaporPressureDeficit (fin 20) 50 :=
  (calculateVaporPressureDeficit_pos 20 50 (by norm_num) (by norm_num) (by decide)
    (by decide)).1 (by decide)

/-! ## Dew point -/

theorem calculateDewPoint_fin {T : ℝ} {h : Int} (hT : 237.7 + T ≠ 0) (hh : 0 < h)
    (hα : 17.27 - (17.27 * T / (237.7 + T) + Real.log ((h : ℝ) / 100.0)) ≠ 0) :
    calculateDewPoint (fin T) h =
      fin (237.7 * (17.27 * T / (237.7 + T) + Real.log ((h : ℝ) / 100.0)) /
        (17.27 - (17.27 * T / (237.7 + T) + Real.log ((h : ℝ) / 100.0)))) := by
  have h100 : (100.0 : ℝ) ≠ 0 := by norm_num
  have hpos : (0 : ℝ) < (h : ℝ) / 100.0 := by
    have : (0 : ℝ) < h := by exact_mod_cast hh
    positivity
  simp only [calculateDewPoint, Float64.ofScientific_def, Float64.ofInt, Float64.fin_mul,
    Float64.fin_add, Float64.fin_div _ hT, Float64.fin_div _ h100, math.Log_fin hpos,
    Float64.fin_sub, Float64.fin_div _ hα]

/-! ## Report normalisation -/

theorem Values.Get_of_lookup_none {q : Values} {key : String} (h : q.lookup key = none) :
    q.Get key = "" := by
  simp [Values.Get, h]

/-- C5: `parseWeatherReport` fails exactly when `dateutc` is non-empty and,
with every `+` replaced by a space, is rejected by `time.Parse` for the layout
`2006-01-02 15:04:05`, whatever the other fields hold and whatever
`strconv.ParseFloat` does; an absent or empty `dateutc` gives a report whose
timestamp is the zero time, and an accepted one gives a report with the parsed
time. -/
theorem parseWeatherReport_error_iff (timeParse : String → String → Except String Time)
    (ParseFloat : String → Float64 × Option NumError) (query : Values) :
    ((∃ e, parseWeatherReport timeParse ParseFloat query = .error e) ↔
      (query.Get "dateutc" ≠ "" ∧
        ∃ err, timeParse "2006-01-02 15:04:05"
          (strings.ReplaceAll (query.Get "dateutc") "+" " ") = .error err)) ∧
    (query.lookup "dateutc" = none → query.Get "dateutc" = "") ∧
    (query.Get "dateutc" = "" →
      ∃ r, parseWeatherReport timeParse ParseFloat query = .ok r ∧ r.DateUTC = Time.zero) ∧
    (∀ t, query.Get "dateutc" ≠ "" →
      timeParse "2006-01-02 15:04:05"
          (strings.ReplaceAll (query.Get "dateutc") "+" " ") = .ok t →
      ∃ r, parseWeatherReport timeParse ParseFloat query = .ok r ∧ r.DateUTC = t) := by
  refine ⟨?_, fun h => Values.Get_of_lookup_none h, ?_, ?_⟩
  · by_cases hd : query.Get "dateutc" = ""
    · simp [parseWeatherReport, hd]
    · cases ht : timeParse "2006-01-02 15:04:05"
          (strings.ReplaceAll (query.Get "dateutc") "+" " ") with
      | error err => simp [parseWeatherReport, hd, ht]
      | ok t => simp [parseWeatherReport, hd, ht]
  · intro hd
    simp [parseWeatherReport, hd]
  · intro t hd ht
    simp [parseWeatherReport, hd, ht]

/-- Witness for C5: an empty mapping, with a `time.Parse` that rejects
everything, still yields a report, stamped with the zero time. -/
theorem parseWeatherReport_error_iff_witness :
    ∃ r, parseWeatherReport (fun _ _ => .error "cannot parse") (fun _ => (0, none)) [] = .ok r ∧
      r.DateUTC = Time.zero :=
  (parseWeatherReport_error_iff (fun _ _ => .error "cannot parse") (fun _ => (0, none)) []).2.2.1
    rfl

theorem strconv.ParseInt_err (s : List Char) :
    ((strconv.ParseInt s).2 = some NumError.ErrSyntax → (strconv.ParseInt s).1 = 0) ∧
    ((strconv.ParseInt s).2 = some NumError.ErrRange →
      (strconv.ParseInt s).1 = 2 ^ 63 - 1 ∨ (strconv.ParseInt s).1 = -(2 ^ 63)) := by
  cases s with
  | nil => simp [strconv.ParseInt]
  | cons c cs =>
    simp only [strconv.ParseInt]
    split_ifs <;> simp

theorem strconv.Atoi_err (s : String) :
    ((strconv.Atoi s).2 = some NumError.ErrSyntax → (strconv.Atoi s).1 = 0) ∧
    ((strconv.Atoi s).2 = some NumError.ErrRange →
      (strconv.Atoi s).1 = 2 ^ 63 - 1 ∨ (strconv.Atoi s).1 = -(2 ^ 63)) := by
  unfold strconv.Atoi
  split_ifs with h
  · cases s.data with
    | nil => simp
    | cons c cs =>
      simp only []
      generalize (if c = '-' ∨ c = '+' then cs else c :: cs) = body
      by_cases hb : body = []
      · simp [hb]
      · cases hf : strconv.Atoi.fast body 0 with
        | none => simp [hb]
        | some n => by_cases hc : c = '-' <;> simp [hb, hc]
  · exact strconv.ParseInt_err s.data

/-- C6, as stated, fails on a number that is well-formed but out of range:
`strconv.Atoi` returns an error for `9223372036854775808` together with the
clamped value `2^63 - 1`, and `parseInt` keeps that value. -/
theorem parseInt_out_of_range_nonzero :
    (strconv.Atoi "9223372036854775808").2 = some NumError.ErrRange ∧
    parseInt "humidity" [("humidity", ["9223372036854775808"])] = 9223372036854775807 := by
  decide

/-- C6, amended: a numeric field is exactly 0 when its key is absent, when its
value is empty, and when `strconv.ParseFloat` (for `parseFloat`) or
`strconv.Atoi` (for `parseInt`) rejects the value as malformed (`ErrSyntax`).
When the value is a well-formed number that is out of range (`ErrRange`), the
field is the clamped value that comes with the error: `+Inf` or `-Inf` for
`parseFloat`, `2^63 - 1` or `-2^63` for `parseInt`.  A mapping with no
`humidity` key normalises to humidity 0.  The hypotheses on `ParseFloat` are
the documented results of Go's `strconv.ParseFloat`: 0 with a syntax error,
an infinity with a range error. -/
theorem parseNumeric_default (ParseFloat : String → Float64 × Option NumError)
    (hSyntax : ∀ s, (ParseFloat s).2 = some NumError.ErrSyntax → (ParseFloat s).1 = 0)
    (hRange : ∀ s, (ParseFloat s).2 = some NumError.ErrRange →
      (ParseFloat s).1 = pinf ∨ (ParseFloat s).1 = ninf)
    (key : String) (query : Values) :
    (query.lookup key = none → query.Get key = "") ∧
    (query.Get key = "" → parseFloat ParseFloat key query = 0 ∧ parseInt key query = 0) ∧
    ((ParseFloat (query.Get key)).2 = some NumError.ErrSyntax →
      parseFloat ParseFloat key query = 0) ∧
    ((strconv.Atoi (query.Get key)).2 = some NumError.ErrSyntax → parseInt key query = 0) ∧
    (query.Get key ≠ "" → (ParseFloat (query.Get key)).2 = some NumError.ErrRange →
      parseFloat ParseFloat key query = pinf ∨ parseFloat ParseFloat key query = ninf) ∧
    ((strconv.Atoi (query.Get key)).2 = some NumError.ErrRange →
      parseInt key query = 2 ^ 63 - 1 ∨ parseInt key query = -(2 ^ 63)) ∧
    (∀ timeParse r, query.lookup "humidity" = none →
      parseWeatherReport timeParse ParseFloat query = .ok r → r.Humidity = 0) := by
  refine ⟨fun h => Values.Get_of_lookup_none h, ?_, ?_, ?_, ?_, ?_, ?_⟩
  · intro h
    simp [parseFloat, parseInt, h]
  · intro h
    by_cases hv : query.Get key = ""
    · simp [parseFloat, hv]
    · simpa [parseFloat, hv] using hSyntax _ h
  · intro h
    by_cases hv : query.Get key = ""
    · simp [parseInt, hv]
    · simpa [parseInt, hv] using (strconv.Atoi_err _).1 h
  · intro hv h
    simpa [parseFloat, hv] using hRange _ h
  · intro h
    by_cases hv : query.Get key = ""
    · rw [hv] at h
      exact absurd h (by decide)
    · simpa [parseInt, hv] using (strconv.Atoi_err _).2 h
  · intro timeParse r h hr
    have hg : query.Get "humidity" = "" := Values.Get_of_lookup_none h
    unfold parseWeatherReport at hr
    simp only [] at hr
    split at hr
    · exact absurd hr (by simp)
    · simp only [Except.ok.injEq] at hr
      rw [← hr]
      simp [parseInt, hg]

/-- Witness for C6 (amended): with a `strconv.ParseFloat` that rejects `abc`
as malformed and everything else as out of range, the field `windspeedmph` of
the mapping `windspeedmph=abc` is 0. -/
theorem parseNumeric_default_witness :
    parseFloat (fun s => if s = "abc" then (0, some NumError.ErrSyntax)
        else (pinf, some NumError.ErrRange)) "windspeedmph" [("windspeedmph", ["abc"])] = 0 :=
  (parseNumeric_default
    (fun s => if s = "abc" then (0, some NumError.ErrSyntax) else (pinf, some NumError.ErrRange))
    (by
      intro s h
      by_cases hs : s = "abc"
      · simp [hs]
      · simp [hs] at h)
    (by
      intro s h
      by_cases hs : s = "abc"
      · simp [hs] at h
      · simp [hs])
    "windspeedmph" [("windspeedmph", ["abc"])]).2.2.1
    (by simp [Values.Get, List.lookup])

/-! ## The derived-measures pipeline -/

/-- C9: `calculateDerivedMeasures` overwrites the nine derived fields with their
formulas, evaluated on `Temp`, `Humidity`, `WindSpeedMph`, `SolarRadiation` of
the report and on the elevation, and keeps every other field; the result does
not depend on what the derived fields held before, and a second application
changes nothing. -/
theorem calculateDerivedMeasures_frame (r : WeatherReport) (e : Float64) :
    calculateDerivedMeasures r e =
      { r with
        AtmosphericPressure := calculateAtmosphericPressure e
        DewPoint := calculateDewPoint r.Temp r.Humidity
        HeatIndex := calculateHeatIndex r.Temp r.Humidity
        WindChill := calculateWindChill r.Temp r.WindSpeedMph
        AbsoluteHumidity := calculateAbsoluteHumidity r.Temp r.Humidity e
        VaporPressure := calculateVaporPressure r.Temp r.Humidity
        VaporPressureDeficit := calculateVaporPressureDeficit r.Temp r.Humidity
        WindRun := calculateWindRun r.WindSpeedMph
        Evapotranspiration := calculateEvapotranspiration r.Temp r.Humidity r.WindSpeedMph
          r.SolarRadiation e } ∧
    (∀ a1 a2 a3 a4 a5 a6 a7 a8 a9 : Float64,
      calculateDerivedMeasures
        { r with
          AtmosphericPressure := a1
          DewPoint := a2
          HeatIndex := a3
          WindChill := a4
          AbsoluteHumidity := a5
          VaporPressure := a6
          VaporPressureDeficit := a7
          WindRun := a8
          Evapotranspiration := a9 } e = calculateDerivedMeasures r e) ∧
    calculateDerivedMeasures (calculateDerivedMeasures r e) e = calculateDerivedMeasures r e :=
  ⟨rfl, fun _ _ _ _ _ _ _ _ _ => rfl, rfl⟩

/-! ## Evapotranspiration -/

theorem calculateEvapotranspiration_eq (tempC : Float64) (humidity : Int)
    (windSpeedMph solarRadiation elevationFt : Float64) :
    calculateEvapotranspiration tempC humidity windSpeedMph solarRadiation elevationFt =
      etNumerator tempC humidity windSpeedMph solarRadiation elevationFt /
        etDenominator tempC windSpeedMph elevationFt := rfl

theorem etDelta_fin {T : ℝ} (hT : -237.3 < T) :
    etDelta (fin T) =
      fin (4098 * (0.6108 * Real.exp (17.27 * T / (T + 237.3))) /
        (T + 237.3) ^ ((2 : Nat) : ℝ)) := by
  have h1 : 0 < T + 237.3 := by linarith
  have h2 : (T + 237.3) ^ ((2 : Nat) : ℝ) ≠ 0 := (Real.rpow_pos_of_pos h1 _).ne'
  simp only [etDelta, Float64.ofScientific_def, Float64.ofNat_def, Float64.fin_mul,
    Float64.fin_add, Float64.fin_div _ h1.ne', math.Exp_fin, math.Pow_fin_of_pos h1,
    Float64.fin_div _ h2]
  norm_num

theorem etGamma_fin {e : ℝ} (he : 0 ≤ 1 - 0.0065 * (e * 0.3048) / 288.15) :
    etGamma (fin e) =
      fin (0.665 * ((10 : Nat) : ℝ) ^ (-((3 : Nat) : ℝ)) *
        (1013.25 * (1 - 0.0065 * (e * 0.3048) / 288.15) ^ (5.255 : ℝ))) := by
  have h10 : (0 : ℝ) < ((10 : Nat) : ℝ) := by norm_num
  simp only [etGamma, calculateAtmosphericPressure_fin he, Float64.ofScientific_def,
    Float64.ofNat_def, Float64.neg_fin, math.Pow_fin_of_pos h10, Float64.fin_mul]

theorem etWindSpeedMs_fin (v : ℝ) {e : ℝ} (he : 0 ≤ e) :
    etWindSpeedMs (fin v) (fin e) = fin (v * 0.44704 * (e * 0.3048 / 10.0) ^ (0.2 : ℝ)) := by
  have h10 : (10.0 : ℝ) ≠ 0 := by norm_num
  have hb : (0 : ℝ) ≤ e * 0.3048 / 10.0 := by positivity
  simp only [etWindSpeedMs, Float64.ofScientific_def, Float64.fin_mul, Float64.fin_div _ h10,
    math.Pow_fin_of_nonneg hb (by norm_num : (0 : ℝ) < 0.2)]

theorem etDenominator_fin_pos (T v e : ℝ) (hT : -237.3 < T)
    (hv : 0 ≤ v) (he0 : 0 ≤ e) (he1 : e ≤ 20000) :
    ∃ d g w : ℝ,
      etDelta (fin T) = fin d ∧ 0 < d ∧
      etGamma (fin e) = fin g ∧ 0 < g ∧
      etWindSpeedMs (fin v) (fin e) = fin w ∧ 0 ≤ w ∧
      etDenominator (fin T) (fin v) (fin e) = fin (d + g * (1 + 0.34 * w)) ∧
      0 < d + g * (1 + 0.34 * w) ∧
      ∀ (humidity : Int) (solarRadiation : Float64),
        calculateEvapotranspiration (fin T) humidity (fin v) solarRadiation (fin e) =
          etNumerator (fin T) humidity (fin v) solarRadiation (fin e) /
            fin (d + g * (1 + 0.34 * w)) := by
  have hb : (0 : ℝ) < 1 - 0.0065 * (e * 0.3048) / 288.15 := by
    rw [sub_pos, div_lt_one (by norm_num)]
    nlinarith
  have h1 : 0 < T + 237.3 := by linarith
  have hd : 0 < 4098 * (0.6108 * Real.exp (17.27 * T / (T + 237.3))) /
      (T + 237.3) ^ ((2 : Nat) : ℝ) := by
    have := Real.exp_pos (17.27 * T / (T + 237.3))
    have := Real.rpow_pos_of_pos h1 ((2 : Nat) : ℝ)
    positivity
  have hg : 0 < 0.665 * ((10 : Nat) : ℝ) ^ (-((3 : Nat) : ℝ)) *
      (1013.25 * (1 - 0.0065 * (e * 0.3048) / 288.15) ^ (5.255 : ℝ)) := by
    have := Real.rpow_pos_of_pos (by norm_num : (0 : ℝ) < ((10 : Nat) : ℝ)) (-((3 : Nat) : ℝ))
    have := Real.rpow_pos_of_pos hb (5.255 : ℝ)
    positivity
  have hw : 0 ≤ v * 0.44704 * (e * 0.3048 / 10.0) ^ (0.2 : ℝ) := by
    have : (0 : ℝ) ≤ (e * 0.3048 / 10.0) ^ (0.2 : ℝ) :=
      Real.rpow_nonneg (by positivity) _
    positivity
  have hden : etDenominator (fin T) (fin v) (fin e) =
      fin (4098 * (0.6108 * Real.exp (17.27 * T / (T + 237.3))) / (T + 237.3) ^ ((2 : Nat) : ℝ) +
        0.665 * ((10 : Nat) : ℝ) ^ (-((3 : Nat) : ℝ)) *
          (1013.25 * (1 - 0.0065 * (e * 0.3048) / 288.15) ^ (5.255 : ℝ)) *
          (1 + 0.34 * (v * 0.44704 * (e * 0.3048 / 10.0) ^ (0.2 : ℝ)))) := by
    simp only [etDenominator, etDelta_fin hT, etGamma_fin hb.le, etWindSpeedMs_fin v he0,
      Float64.ofScientific_def, Float64.ofNat_def, Float64.fin_mul, Float64.fin_add,
      Nat.cast_one]
  refine ⟨_, _, _, etDelta_fin hT, hd, etGamma_fin hb.le, hg, etWindSpeedMs_fin v he0, hw,
    hden, ?_, ?_⟩
  · have : 0 ≤ 1 + 0.34 * (v * 0.44704 * (e * 0.3048 / 10.0) ^ (0.2 : ℝ)) := by linarith
    nlinarith [mul_nonneg hg.le this]
  · intro humidity solarRadiation
    rw [calculateEvapotranspiration_eq, hden]

theorem etDelta_pinf : etDelta pinf = nan := by
  have h1 : (17.27 : Float64) * pinf = pinf := by
    rw [Float64.ofScientific_def]
    show Float64.infTimes true _ = pinf
    have : (0 : ℝ) < 17.27 := by norm_num
    simp [Float64.infTimes, this]
  have h2 : pinf + (237.3 : Float64) = pinf := rfl
  have h3 : pinf / pinf = nan := rfl
  have h4 : (4098 : Float64) * ((0.6108 : Float64) * math.Exp nan) = nan := rfl
  simp only [etDelta, h1, h2, h3, h4]
  cases math.Pow pinf 2 <;> rfl

theorem etDenominator_pinf (v e : Float64) : etDenominator pinf v e = nan := by
  simp only [etDenominator, etDelta_pinf]
  show Float64.add nan _ = nan
  cases (etGamma e * (1 + 0.34 * etWindSpeedMs v e)) <;> rfl

/-- C10, as stated, fails at an infinite temperature, which a report with
`tempf=Inf` produces: `17.27 * T / (T + 237.3)` is `Inf / Inf`, so `delta` and
the denominator are `NaN` and not above 0. -/
theorem calculateEvapotranspiration_denominator_nan :
    etDelta pinf = nan ∧ ¬ (0 < etDelta pinf) ∧
    etDenominator pinf (fin 5) (fin 1000) = nan ∧
    ¬ (0 < etDenominator pinf (fin 5) (fin 1000)) := by
  refine ⟨etDelta_pinf, ?_, etDenominator_pinf _ _, ?_⟩
  · rw [etDelta_pinf, Float64.zero_def]
    intro h
    exact h
  · rw [etDenominator_pinf, Float64.zero_def]
    intro h
    exact h

/-- C10, amended: for a temperature between -100 °C and 100 °C, a wind speed
of at least 0 and an elevation between 0 and 20000 ft, the locals `delta` and
`gamma` of `calculateEvapotranspiration` and its denominator
`delta + gamma * (1 + 0.34 * windSpeedMs)` are above 0; the function returns
the numerator divided by that denominator, whatever the humidity and the solar
radiation, so the division is not a division by zero. -/
theorem calculateEvapotranspiration_denominator_pos (T v e : ℝ) (hlo : -100 ≤ T)
    (_hhi : T ≤ 100) (hv : 0 ≤ v) (he0 : 0 ≤ e) (he1 : e ≤ 20000) :
    0 < etDelta (fin T) ∧ 0 < etGamma (fin e) ∧
    0 < etDenominator (fin T) (fin v) (fin e) ∧
    ∀ (humidity : Int) (solarRadiation : Float64),
      calculateEvapotranspiration (fin T) humidity (fin v) solarRadiation (fin e) =
        etNumerator (fin T) humidity (fin v) solarRadiation (fin e) /
          etDenominator (fin T) (fin v) (fin e) := by
  obtain ⟨d, g, w, hd, hd0, hg, hg0, -, -, hden, hden0, -⟩ :=
    etDenominator_fin_pos T v e (by linarith) hv he0 he1
  refine ⟨?_, ?_, ?_, fun humidity solarRadiation => calculateEvapotranspiration_eq _ _ _ _ _⟩
  · rw [hd, Float64.zero_def, Float64.fin_lt_fin]
    exact hd0
  · rw [hg, Float64.zero_def, Float64.fin_lt_fin]
    exact hg0
  · rw [hden, Float64.zero_def, Float64.fin_lt_fin]
    exact hden0

/-- Witness for C10 (amended): 20 °C, 5 mph, 1000 ft. -/
theorem calculateEvapotranspiration_denominator_pos_witness :
    0 < etDenominator (fin 20) (fin 5) (fin 1000) :=
  (calculateEvapotranspiration_denominator_pos 20 5 1000 (by norm_num) (by norm_num)
    (by norm_num) (by norm_num) (by norm_num)).2.2.1

/-! ## The scenario of a 68 °F, 50 %, 5 mph report at sea level -/

theorem parseWeatherReport_fields {timeParse : String → String → Except String Time}
    {ParseFloat : String → Float64 × Option NumError} {query : Values} {r : WeatherReport}
    (hr : parseWeatherReport timeParse ParseFloat query = .ok r) :
    r.Temp = parseTempF ParseFloat "tempf" query ∧
    r.Humidity = parseInt "humidity" query ∧
    r.WindSpeedMph = parseFloat ParseFloat "windspeedmph" query ∧
    r.SolarRadiation = parseFloat ParseFloat "solarradiation" query := by
  unfold parseWeatherReport at hr
  simp only [] at hr
  split at hr
  · exact absurd hr (by simp)
  · simp only [Except.ok.injEq] at hr
    rw [← hr]
    exact ⟨rfl, rfl, rfl, rfl⟩

theorem parseWeatherReport_ok_of_no_date (timeParse : String → String → Except String Time)
    (ParseFloat : String → Float64 × Option NumError) {query : Values}
    (hd : query.Get "dateutc" = "") :
    ∃ r, parseWeatherReport timeParse ParseFloat query = .ok r := by
  simp [parseWeatherReport, hd]

theorem dewPoint_20_50_bounds :
    |237.7 * (17.27 * 20 / (237.7 + 20) + Real.log (((50 : Int) : ℝ) / 100.0)) /
      (17.27 - (17.27 * 20 / (237.7 + 20) + Real.log (((50 : Int) : ℝ) / 100.0))) - 9.3| < 0.1 ∧
    17.27 - (17.27 * 20 / (237.7 + 20) + Real.log (((50 : Int) : ℝ) / 100.0)) ≠ 0 := by
  have hlog : Real.log (((50 : Int) : ℝ) / 100.0) = -Real.log 2 := by
    rw [show ((50 : Int) : ℝ) / 100.0 = 2⁻¹ by norm_num, Real.log_inv]
  have hlo := Real.log_two_gt_d9
  have hhi := Real.log_two_lt_d9
  rw [hlog]
  have hD : 0 < 17.27 - (17.27 * 20 / (237.7 + 20) + -Real.log 2) := by
    norm_num
    linarith
  refine ⟨?_, hD.ne'⟩
  rw [abs_lt]
  constructor
  · rw [lt_sub_iff_add_lt, lt_div_iff₀ hD]
    norm_num
    linarith
  · rw [sub_lt_iff_lt_add, div_lt_iff₀ hD]
    norm_num
    linarith

/-- C8: the report `tempf=68, humidity=50, windspeedmph=5`, with
`strconv.ParseFloat` reading `68` as 68 and `5` as 5, is accepted, and at
elevation 0 ft its outdoor temperature is 20, its atmospheric pressure
1013.25, its wind run 120 and its dew point within 0.1 of 9.3. -/
theorem scenario_68F_50pct_5mph (timeParse : String → String → Except String Time)
    (ParseFloat : String → Float64 × Option NumError)
    (h68 : (ParseFloat "68").1 = fin 68) (h5 : (ParseFloat "5").1 = fin 5) :
    ∃ r, parseWeatherReport timeParse ParseFloat
        [("tempf", ["68"]), ("humidity", ["50"]), ("windspeedmph", ["5"])] = .ok r ∧
      (calculateDerivedMeasures r 0).Temp = fin 20 ∧
      (calculateDerivedMeasures r 0).AtmosphericPressure = fin 1013.25 ∧
      (calculateDerivedMeasures r 0).WindRun = fin 120 ∧
      ∃ x : ℝ, (calculateDerivedMeasures r 0).DewPoint = fin x ∧ |x - 9.3| < 0.1 := by
  obtain ⟨r, hr⟩ := parseWeatherReport_ok_of_no_date timeParse ParseFloat
    (show Values.Get [("tempf", ["68"]), ("humidity", ["50"]), ("windspeedmph", ["5"])]
      "dateutc" = "" by decide)
  obtain ⟨hT, hH, hW, -⟩ := parseWeatherReport_fields hr
  have h9 : ((9 : Nat) : ℝ) ≠ 0 := by norm_num
  have hget68 : Values.Get [("tempf", ["68"]), ("humidity", ["50"]), ("windspeedmph", ["5"])]
      "tempf" = "68" := by decide
  have hget5 : Values.Get [("tempf", ["68"]), ("humidity", ["50"]), ("windspeedmph", ["5"])]
      "windspeedmph" = "5" := by decide
  have hTemp : r.Temp = fin 20 := by
    have hne : fin 68 ≠ (0 : Float64) := by
      rw [Float64.zero_def, Ne, Float64.fin.injEq]
      norm_num
    have hpf : parseFloat ParseFloat "tempf"
        [("tempf", ["68"]), ("humidity", ["50"]), ("windspeedmph", ["5"])] = fin 68 := by
      simp [parseFloat, hget68, h68]
    rw [hT]
    unfold parseTempF
    simp only [hpf]
    rw [if_neg hne, Float64.ofNat_def, Float64.ofNat_def, Float64.ofNat_def, Float64.fin_sub,
      Float64.fin_mul, Float64.fin_div _ h9]
    norm_num
  have hHum : r.Humidity = 50 := by
    rw [hH]
    decide
  have hWind : r.WindSpeedMph = fin 5 := by
    rw [hW]
    simp [parseFloat, hget5, h5]
  have hP : calculateAtmosphericPressure 0 = fin 1013.25 := by
    have h : (0 : ℝ) ≤ 1 - 0.0065 * (0 * 0.3048) / 288.15 := by norm_num
    rw [Float64.zero_def, calculateAtmosphericPressure_fin h]
    norm_num
  refine ⟨r, hr, hTemp, hP, ?_, ?_⟩
  · show calculateWindRun r.WindSpeedMph = fin 120
    rw [hWind]
    simp only [calculateWindRun, Float64.ofScientific_def, Float64.fin_mul]
    norm_num
  · show ∃ x : ℝ, calculateDewPoint r.Temp r.Humidity = fin x ∧ |x - 9.3| < 0.1
    rw [hTemp, hHum]
    have hb := dewPoint_20_50_bounds
    exact ⟨_, calculateDewPoint_fin (by norm_num) (by decide) hb.2, hb.1⟩

/-- Witness for C8: a `strconv.ParseFloat` that reads `68` as 68 and anything
else as 5. -/
theorem scenario_68F_50pct_5mph_witness :
    ∃ r, parseWeatherReport (fun _ _ => .error "cannot parse")
        (fun s => if s = "68" then (fin 68, none) else (fin 5, none))
        [("tempf", ["68"]), ("humidity", ["50"]), ("windspeedmph", ["5"])] = .ok r ∧
      (calculateDerivedMeasures r 0).Temp = fin 20 ∧
      (calculateDerivedMeasures r 0).AtmosphericPressure = fin 1013.25 ∧
      (calculateDerivedMeasures r 0).WindRun = fin 120 ∧
      ∃ x : ℝ, (calculateDerivedMeasures r 0).DewPoint = fin x ∧ |x - 9.3| < 0.1 :=
  scenario_68F_50pct_5mph (fun _ _ => .error "cannot parse")
    (fun s => if s = "68" then (fin 68, none) else (fin 5, none)) (by simp) (by simp)


/-! ## The elevation adjustment of the wind speed -/

theorem etWindSpeedMs_lt_unadjusted {v e : ℝ} (hv : 0 < v) (he0 : 0 ≤ e)
    (he : 0.3048 * e < 10) :
    etWindSpeedMs (fin v) (fin e) < fin v * 0.44704 := by
  have hb0 : (0 : ℝ) ≤ e * 0.3048 / 10.0 := by positivity
  have hb1 : e * 0.3048 / 10.0 < 1 := by
    rw [div_lt_one (by norm_num)]
    norm_num
    linarith
  have hpow : (e * 0.3048 / 10.0) ^ (0.2 : ℝ) < 1 :=
    Real.rpow_lt_one hb0 hb1 (by norm_num)
  rw [etWindSpeedMs_fin v he0, Float64.ofScientific_def, Float64.fin_mul, Float64.fin_lt_fin]
  have hu : 0 < v * 0.44704 := by positivity
  nlinarith

theorem etWindSpeedMs_ge_unadjusted {v e : ℝ} (hv : 0 ≤ v) (he : 10 ≤ 0.3048 * e) :
    fin v * 0.44704 ≤ etWindSpeedMs (fin v) (fin e) := by
  have he0 : 0 ≤ e := by linarith
  have hb1 : 1 ≤ e * 0.3048 / 10.0 := by
    rw [one_le_div (by norm_num)]
    norm_num
    linarith
  have hpow : 1 ≤ (e * 0.3048 / 10.0) ^ (0.2 : ℝ) :=
    Real.one_le_rpow hb1 (by norm_num)
  rw [etWindSpeedMs_fin v he0, Float64.ofScientific_def, Float64.fin_mul, Float64.fin_le_fin]
  have hu : 0 ≤ v * 0.44704 := by positivity
  nlinarith

/-- C11, as stated, fails below the reference height of 10 m: at 10 ft the
factor `(0.3048 * 10 / 10) ^ 0.2` is below 1, and a wind of 5 mph is adjusted
downward. -/
theorem etWindSpeedMs_below_unadjusted_at_10ft :
    etWindSpeedMs (fin 5) (fin 10) < fin 5 * 0.44704 ∧
    ¬ (fin 5 * 0.44704 ≤ etWindSpeedMs (fin 5) (fin 10)) := by
  have h := etWindSpeedMs_lt_unadjusted (by norm_num : (0 : ℝ) < 5)
    (by norm_num : (0 : ℝ) ≤ 10) (by norm_num : (0.3048 : ℝ) * 10 < 10)
  refine ⟨h, ?_⟩
  intro hle
  rw [etWindSpeedMs_fin 5 (by norm_num : (0 : ℝ) ≤ 10), Float64.ofScientific_def,
    Float64.fin_mul] at h hle
  rw [Float64.fin_lt_fin] at h
  rw [Float64.fin_le_fin] at hle
  exact absurd h (not_lt.mpr hle)

/-- C11, amended: for a wind speed of at least 0 and an elevation of at least
10 m (`0.3048 * elevationFt ≥ 10`, the reference height of the adjustment),
the elevation-adjusted wind speed `v * 0.44704 * (0.3048 * elevationFt / 10) ^ 0.2`
of `calculateEvapotranspiration` is at least the unadjusted `v * 0.44704`. -/
theorem etWindSpeedMs_adjustment (v e : ℝ) (hv : 0 ≤ v) (he : 10 ≤ 0.3048 * e) :
    fin v * 0.44704 ≤ etWindSpeedMs (fin v) (fin e) :=
  etWindSpeedMs_ge_unadjusted hv he

/-- Witness for C11 (amended): 5 mph at 1000 ft is adjusted upward. -/
theorem etWindSpeedMs_adjustment_witness :
    fin 5 * 0.44704 ≤ etWindSpeedMs (fin 5) (fin 1000) :=
  etWindSpeedMs_adjustment 5 1000 (by norm_num) (by norm_num)

end AmbientExporter
